import Mathlib

/-!
Shallow embedding of the dynamic SQL fragment builders of the jobly
repository (src/helpers/sql.js) and of the job repository search statement
builder (src/models/job.js, Job.findBySearch), together with proofs of the
specification's claims about them.

Modelling conventions:
* A JavaScript object whose keys are iterated (`dataToUpdate`) is an ordered
  association list `List (String × α)`; `Object.keys` is `map Prod.fst`,
  `Object.values` is `map Prod.snd`, in the same (insertion) order.
* A query-parameter object with a fixed set of recognized keys is a structure
  of `Option` fields; an absent key (`undefined` in JS) is `none`.
* A heterogeneous JavaScript primitive value is `JsVal`; JavaScript strict
  equality (`===`) on primitives is constructor-and-payload equality.
* `throw new BadRequestError(msg)` is `Except.error (ExpressError.badRequest
  (some msg))`; the no-argument form passes `none`.
* Template-literal interpolation is string concatenation; `Array.join(sep)`
  is `String.intercalate sep`.
-/

deriving instance DecidableEq for Except

/-- A JavaScript primitive value as it appears in query parameters and in
the bound-value arrays produced by the builders. -/
inductive JsVal : Type where
  | str (s : String)
  | num (n : Int)
  | bool (b : Bool)
deriving DecidableEq, Repr

/-- The error class thrown by the helpers (`BadRequestError` from
expressError.js); `badRequest none` models `new BadRequestError()` with the
class's default message. -/
inductive ExpressError : Type where
  | badRequest (msg : Option String)
deriving DecidableEq, Repr

/-- Result record of the search compilers: `{ searchCols, values }`. -/
structure SearchResult : Type where
  searchCols : String
  values : List JsVal
deriving DecidableEq, Repr

/-- Result record of `sqlForPartialUpdate`: `{ setCols, values }`. -/
structure UpdateResult (α : Type) : Type where
  setCols : String
  values : List α
deriving DecidableEq, Repr

/-- The column-name resolution `jsToSql[colName] || colName` from
sqlForPartialUpdate: the mapped name when present and truthy; the key
itself when the key is absent or maps to the empty string (falsy). -/
def jsToSqlName (jsToSql : List (String × String)) (colName : String) : String :=
  match jsToSql.lookup colName with
  | some s => if s = "" then colName else s
  | none => colName

/-- The fragment list `keys.map((colName, idx) => `"${...}"=$${idx+1}`)`
from sqlForPartialUpdate, with `idx` threaded explicitly (the first call
uses `idx = 0`). -/
def sqlForPartialUpdateCols {α : Type} (jsToSql : List (String × String)) :
    Nat → List (String × α) → List String
  | _, [] => []
  | idx, (k, _) :: rest =>
    ("\"" ++ jsToSqlName jsToSql k ++ "\"=$" ++ toString (idx + 1)) ::
      sqlForPartialUpdateCols jsToSql (idx + 1) rest

/-- src/helpers/sql.js, sqlForPartialUpdate: throws `BadRequestError("No
data")` on an empty object, otherwise joins the column fragments with
`", "` and returns the object's values in iteration order. -/
def sqlForPartialUpdate {α : Type} (dataToUpdate : List (String × α))
    (jsToSql : List (String × String)) : Except ExpressError (UpdateResult α) :=
  if dataToUpdate.length = 0 then .error (.badRequest (some "No data"))
  else .ok ⟨String.intercalate ", " (sqlForPartialUpdateCols jsToSql 0 dataToUpdate),
            dataToUpdate.map Prod.snd⟩

/-- Recognized company search keys (`{ minEmployees, maxEmployees, nameLike }`
destructured from queryParams); an absent key is `none`. -/
structure CompanyQuery : Type where
  nameLike : Option String
  minEmployees : Option Int
  maxEmployees : Option Int
deriving DecidableEq, Repr

/-- src/helpers/sql.js, _sqlForCompanySearchByName: rejects `undefined` and
the empty string, otherwise emits one `name ILIKE` fragment at the next
placeholder and binds the wildcarded term. -/
def _sqlForCompanySearchByName (searchTerm : Option String) (currentIdx : Nat) :
    Except ExpressError (List String × List JsVal) :=
  match searchTerm with
  | none => .error (.badRequest none)
  | some t =>
    if t = "" then .error (.badRequest none)
    else .ok (["name ILIKE $" ++ toString (currentIdx + 1)],
              [JsVal.str ("%" ++ t ++ "%")])

/-- JavaScript `minEmployees > maxEmployees` on possibly-undefined numbers:
any comparison against `undefined` is false. -/
def jsGt : Option Int → Option Int → Bool
  | some m, some mx => decide (mx < m)
  | _, _ => false

/-- src/helpers/sql.js, _sqlForCompanySearchByNumEmps: errors when both
bounds are absent or when the range is inverted; otherwise emits the `>=`
fragment (when min is present) and then the `<=` fragment (when max is
present), advancing the placeholder cursor. -/
def _sqlForCompanySearchByNumEmps (minEmployees maxEmployees : Option Int)
    (currentIdx : Nat) : Except ExpressError (List String × List JsVal) :=
  if minEmployees = none ∧ maxEmployees = none then .error (.badRequest none)
  else if jsGt minEmployees maxEmployees then
    .error (.badRequest (some "minEmployees cannot be larger than maxEmployees"))
  else
    let step :=
      match minEmployees with
      | some m => (["num_employees >= $" ++ toString (currentIdx + 1)],
                   [JsVal.num m], currentIdx + 1)
      | none => ([], [], currentIdx)
    match maxEmployees with
    | some mx => .ok (step.1 ++ ["num_employees <= $" ++ toString (step.2.2 + 1)],
                      step.2.1 ++ [JsVal.num mx])
    | none => .ok (step.1, step.2.1)

/-- src/helpers/sql.js, sqlForCompanySearch, before the final join: visits
the name dimension first (placeholder cursor `values.length = 0`), then the
employee-count range dimension (cursor = values accumulated so far). -/
def sqlForCompanySearchParts (queryParams : CompanyQuery) :
    Except ExpressError (List String × List JsVal) :=
  let step1 : Except ExpressError (List String × List JsVal) :=
    match queryParams.nameLike with
    | some _ => _sqlForCompanySearchByName queryParams.nameLike 0
    | none => .ok ([], [])
  match step1 with
  | .error e => .error e
  | .ok (cols, values) =>
    if queryParams.minEmployees.isSome || queryParams.maxEmployees.isSome then
      match _sqlForCompanySearchByNumEmps queryParams.minEmployees
          queryParams.maxEmployees values.length with
      | .error e => .error e
      | .ok (colsTemp, valuesTemp) => .ok (cols ++ colsTemp, values ++ valuesTemp)
    else .ok (cols, values)

/-- src/helpers/sql.js, sqlForCompanySearch: the accumulated fragments
joined with `" AND "`, paired with the accumulated bound values. -/
def sqlForCompanySearch (queryParams : CompanyQuery) :
    Except ExpressError SearchResult :=
  match sqlForCompanySearchParts queryParams with
  | .error e => .error e
  | .ok (cols, values) => .ok ⟨String.intercalate " AND " cols, values⟩

/-- Recognized job search keys (`{ title, minSalary, hasEquity }`
destructured from queryParams); `hasEquity` keeps its raw primitive value
because the source compares it with strict equality. -/
structure JobQuery : Type where
  title : Option String
  minSalary : Option Int
  hasEquity : Option JsVal
deriving DecidableEq, Repr

/-- src/helpers/sql.js, sqlForJobSearch, before the final join: pushes the
title fragment, then the salary fragment, then (only on strictly-boolean
`hasEquity`) the equity fragment, each at placeholder `values.length + 1`. -/
def sqlForJobSearchParts (queryParams : JobQuery) : List String × List JsVal :=
  let acc : List String × List JsVal := ([], [])
  let acc :=
    match queryParams.title with
    | some t => (acc.1 ++ ["title ILIKE $" ++ toString (acc.2.length + 1)],
                 acc.2 ++ [JsVal.str ("%" ++ t ++ "%")])
    | none => acc
  let acc :=
    match queryParams.minSalary with
    | some s => (acc.1 ++ ["salary >= $" ++ toString (acc.2.length + 1)],
                 acc.2 ++ [JsVal.num s])
    | none => acc
  let acc :=
    match queryParams.hasEquity with
    | some v =>
      let acc :=
        if v = JsVal.bool true then
          (acc.1 ++ ["equity > $" ++ toString (acc.2.length + 1)],
           acc.2 ++ [JsVal.num 0])
        else acc
      if v = JsVal.bool false then
        (acc.1 ++ ["equity = $" ++ toString (acc.2.length + 1)],
         acc.2 ++ [JsVal.num 0])
      else acc
    | none => acc
  acc

/-- src/helpers/sql.js, sqlForJobSearch: fragments joined with `" AND "`
and the bound values; this function never throws. -/
def sqlForJobSearch (queryParams : JobQuery) : SearchResult :=
  let acc := sqlForJobSearchParts queryParams
  ⟨String.intercalate " AND " acc.1, acc.2⟩

/-- src/models/job.js, Job.findBySearch: the SQL statement text built from
the compiled search clause; the template interpolates `searchCols` after
the `WHERE` keyword unconditionally. -/
def jobFindBySearchQuerySql (queryParams : JobQuery) : String :=
  let r := sqlForJobSearch queryParams
  "\n      SELECT  id,\n              title,\n              salary,\n              equity,\n              company_handle AS \"companyHandle\"\n        FROM jobs\n        WHERE " ++ r.searchCols ++ "\n        ORDER BY id"

/-- Claim C9: an empty FilterSpec (no recognized keys present) compiles
successfully to the empty where-clause text and an empty value list, for
both the company and the job predicate compilers. -/
theorem emptyFilterSpec_compiles_empty :
    sqlForCompanySearch ⟨none, none, none⟩ = .ok ⟨"", []⟩ ∧
    sqlForJobSearch ⟨none, none, none⟩ = ⟨"", []⟩ := by
  decide

/-- Claim C5: for every translation table (and every value type),
`sqlForPartialUpdate` on an empty data object fails synchronously with
`BadRequestError "No data"` and produces no clause output. -/
theorem sqlForPartialUpdate_noData {α : Type} (jsToSql : List (String × String)) :
    sqlForPartialUpdate ([] : List (String × α)) jsToSql =
      .error (.badRequest (some "No data")) := rfl

/-- Claim C7: the boolean-sentinel filter is tri-state: `hasEquity = true`
yields `("equity > $1", [0])`, `hasEquity = false` yields
`("equity = $1", [0])`, and an absent `hasEquity` contributes no fragment
and no bound value (the fragment and value counts are exactly those of the
title and salary dimensions). -/
theorem sqlForJobSearch_hasEquity_triState :
    sqlForJobSearch ⟨none, none, some (JsVal.bool true)⟩ =
      ⟨"equity > $1", [JsVal.num 0]⟩ ∧
    sqlForJobSearch ⟨none, none, some (JsVal.bool false)⟩ =
      ⟨"equity = $1", [JsVal.num 0]⟩ ∧
    ∀ (ti : Option String) (ms : Option Int),
      (sqlForJobSearchParts ⟨ti, ms, none⟩).1.length =
        (if ti.isSome then 1 else 0) + (if ms.isSome then 1 else 0) ∧
      (sqlForJobSearchParts ⟨ti, ms, none⟩).2.length =
        (if ti.isSome then 1 else 0) + (if ms.isSome then 1 else 0) := by
  refine ⟨by decide, by decide, ?_⟩
  intro ti ms
  cases ti <;> cases ms <;> simp [sqlForJobSearchParts]

/-- Claim C10: a present `hasEquity` value that is neither strictly the
boolean `true` nor strictly the boolean `false` emits no equity fragment,
no bound value and no error: the output equals the output with `hasEquity`
absent. -/
theorem sqlForJobSearch_nonBoolEquity (ti : Option String) (ms : Option Int)
    (v : JsVal) (h1 : v ≠ JsVal.bool true) (h2 : v ≠ JsVal.bool false) :
    sqlForJobSearch ⟨ti, ms, some v⟩ = sqlForJobSearch ⟨ti, ms, none⟩ := by
  unfold sqlForJobSearch sqlForJobSearchParts
  simp [h1, h2]

/-- Witness for C10 at the concrete input `hasEquity = "true"` (a string,
not a boolean). -/
theorem sqlForJobSearch_nonBoolEquity_witness :
    JsVal.str "true" ≠ JsVal.bool true ∧
    sqlForJobSearch ⟨none, none, some (JsVal.str "true")⟩ =
      sqlForJobSearch ⟨none, none, none⟩ :=
  ⟨by decide,
   sqlForJobSearch_nonBoolEquity none none (JsVal.str "true") (by decide) (by decide)⟩

set_option maxRecDepth 4096 in
/-- Claim C3 (code evaluation): at a FilterSpec with no recognized keys the
compiled where-clause is empty, yet `Job.findBySearch` still builds a
statement containing the `WHERE` keyword followed by empty clause text
before `ORDER BY id`; it does not fall back to the unfiltered statement. -/
theorem jobFindBySearch_emptyFilter_keepsWhere :
    (sqlForJobSearch ⟨none, none, none⟩).searchCols = "" ∧
    jobFindBySearchQuerySql ⟨none, none, none⟩ =
      "\n      SELECT  id,\n              title,\n              salary,\n              equity,\n              company_handle AS \"companyHandle\"\n        FROM jobs\n        WHERE \n        ORDER BY id" ∧
    jobFindBySearchQuerySql ⟨none, none, none⟩ ≠
      "\n      SELECT  id,\n              title,\n              salary,\n              equity,\n              company_handle AS \"companyHandle\"\n        FROM jobs\n        ORDER BY id" := by
  refine ⟨rfl, by decide, by decide⟩

/-- Claim C1: every FilterSpec with more than one recognized dimension (on
which compilation can succeed) compiles to the fragments in the fixed
dimension order — name first, then the numeric range — joined by `" AND "`,
with strictly increasing 1-based placeholders whose i-th placeholder binds
`values[i]`; the four multi-dimension presence patterns are characterized
exactly. -/
theorem sqlForCompanySearch_multiDim (t : String) (m mx : Int) :
    (t ≠ "" → ¬ mx < m →
      sqlForCompanySearch ⟨some t, some m, some mx⟩ =
        .ok ⟨"name ILIKE $1 AND num_employees >= $2 AND num_employees <= $3",
             [.str ("%" ++ t ++ "%"), .num m, .num mx]⟩) ∧
    (t ≠ "" →
      sqlForCompanySearch ⟨some t, some m, none⟩ =
        .ok ⟨"name ILIKE $1 AND num_employees >= $2",
             [.str ("%" ++ t ++ "%"), .num m]⟩) ∧
    (t ≠ "" →
      sqlForCompanySearch ⟨some t, none, some mx⟩ =
        .ok ⟨"name ILIKE $1 AND num_employees <= $2",
             [.str ("%" ++ t ++ "%"), .num mx]⟩) ∧
    (¬ mx < m →
      sqlForCompanySearch ⟨none, some m, some mx⟩ =
        .ok ⟨"num_employees >= $1 AND num_employees <= $2",
             [.num m, .num mx]⟩) := by
  refine ⟨?_, ?_, ?_, ?_⟩ <;> intro h1 <;> try intro h2
  all_goals
    simp [sqlForCompanySearch, sqlForCompanySearchParts, _sqlForCompanySearchByName,
      _sqlForCompanySearchByNumEmps, jsGt, String.intercalate, h1, *]
  all_goals decide

/-- Witness for C1 at the spec's concrete example
`{nameLike:"net", minEmployees:3, maxEmployees:15}`. -/
theorem sqlForCompanySearch_multiDim_witness :
    ("net" : String) ≠ "" ∧ ¬ (15 : Int) < 3 ∧
    sqlForCompanySearch ⟨some "net", some 3, some 15⟩ =
      .ok ⟨"name ILIKE $1 AND num_employees >= $2 AND num_employees <= $3",
           [.str "%net%", .num 3, .num 15]⟩ :=
  ⟨by decide, by decide,
   (sqlForCompanySearch_multiDim "net" 3 15).1 (by decide) (by decide)⟩

/-- Claim C6: whenever both employee bounds are present and inverted
(`min > max`), the company predicate compiler fails synchronously with a
`BadRequestError`, regardless of which other dimensions are present. -/
theorem sqlForCompanySearch_invertedRange (n : Option String) (m mx : Int)
    (h : mx < m) :
    ∃ msg, sqlForCompanySearch ⟨n, some m, some mx⟩ =
      .error (.badRequest msg) := by
  rcases n with _ | t
  · exact ⟨some "minEmployees cannot be larger than maxEmployees", by
      simp [sqlForCompanySearch, sqlForCompanySearchParts,
        _sqlForCompanySearchByNumEmps, jsGt, h]⟩
  · by_cases ht : t = ""
    · exact ⟨none, by
        simp [sqlForCompanySearch, sqlForCompanySearchParts,
          _sqlForCompanySearchByName, ht]⟩
    · exact ⟨some "minEmployees cannot be larger than maxEmployees", by
        simp [sqlForCompanySearch, sqlForCompanySearchParts,
          _sqlForCompanySearchByName, _sqlForCompanySearchByNumEmps, jsGt, h, ht]⟩

/-- Witness for C6 at the spec's concrete example
`{minEmployees:10, maxEmployees:1}` (with a name dimension also present). -/
theorem sqlForCompanySearch_invertedRange_witness :
    (1 : Int) < 10 ∧
    ∃ msg, sqlForCompanySearch ⟨some "net", some 10, some 1⟩ =
      .error (.badRequest msg) :=
  ⟨by decide, sqlForCompanySearch_invertedRange (some "net") 10 1 (by decide)⟩

/-- Claim C4: the text-like-match fragments are independent of the search
term — the company rule returns the term-free fragment text
`name ILIKE $<n>` with the wildcarded term only in the bound value list,
and two job-search runs with different title terms produce identical
fragment lists, the wildcarded term appearing only as the first bound
value. -/
theorem textLike_fragment_term_independent :
    (∀ (t : String) (idx : Nat), t ≠ "" →
      _sqlForCompanySearchByName (some t) idx =
        .ok (["name ILIKE $" ++ toString (idx + 1)],
             [JsVal.str ("%" ++ t ++ "%")])) ∧
    (∀ (t1 t2 : String) (ms : Option Int) (he : Option JsVal),
      (sqlForJobSearchParts ⟨some t1, ms, he⟩).1 =
        (sqlForJobSearchParts ⟨some t2, ms, he⟩).1 ∧
      (sqlForJobSearchParts ⟨some t1, ms, he⟩).2.head? =
        some (JsVal.str ("%" ++ t1 ++ "%"))) := by
  constructor
  · intro t idx ht
    simp [_sqlForCompanySearchByName, ht]
  · intro t1 t2 ms he
    rcases he with _ | v
    · cases ms <;> simp [sqlForJobSearchParts]
    · by_cases hv1 : v = JsVal.bool true <;> by_cases hv2 : v = JsVal.bool false <;>
        cases ms <;> simp [sqlForJobSearchParts, hv1, hv2]

/-- Witness for C4 at the concrete term "net" and cursor 0. -/
theorem textLike_fragment_term_independent_witness :
    ("net" : String) ≠ "" ∧
    _sqlForCompanySearchByName (some "net") 0 =
      .ok (["name ILIKE $1"], [JsVal.str "%net%"]) :=
  ⟨by decide, textLike_fragment_term_independent.1 "net" 0 (by decide)⟩

lemma sqlForPartialUpdateCols_length {α : Type} (js : List (String × String))
    (idx : Nat) (data : List (String × α)) :
    (sqlForPartialUpdateCols js idx data).length = data.length := by
  induction data generalizing idx with
  | nil => rfl
  | cons hd tl ih => cases hd; simp [sqlForPartialUpdateCols, ih]

lemma sqlForPartialUpdateCols_getElem {α : Type} (js : List (String × String))
    (data : List (String × α)) :
    ∀ (idx i : Nat),
      (sqlForPartialUpdateCols js idx data)[i]? =
        (data[i]?).map fun kv =>
          "\"" ++ jsToSqlName js kv.1 ++ "\"=$" ++ toString (idx + i + 1) := by
  induction data with
  | nil => intro idx i; simp [sqlForPartialUpdateCols]
  | cons hd tl ih =>
    intro idx i
    cases hd with
    | mk k v =>
      cases i with
      | zero => simp [sqlForPartialUpdateCols]
      | succ j =>
        have harith : idx + 1 + j + 1 = idx + (j + 1) + 1 := by omega
        simp [sqlForPartialUpdateCols, ih (idx + 1) j, harith]

/-- Claim C2: for every non-empty data object and every translation table,
`sqlForPartialUpdate` returns a clause built from exactly one fragment per
key, joined with `", "`; the i-th fragment (0-based) is
`"<column>"=$<i+1>` for the i-th key in iteration order, and the returned
values are the object's values in that same order, so `values[i]` is bound
by placeholder `$<i+1>`. -/
theorem sqlForPartialUpdate_spec {α : Type} (data : List (String × α))
    (js : List (String × String)) (h : data ≠ []) :
    ∃ frags : List String,
      sqlForPartialUpdate data js =
        .ok ⟨String.intercalate ", " frags, data.map Prod.snd⟩ ∧
      frags.length = data.length ∧
      ∀ i : Nat, frags[i]? =
        (data[i]?).map fun kv =>
          "\"" ++ jsToSqlName js kv.1 ++ "\"=$" ++ toString (i + 1) := by
  refine ⟨sqlForPartialUpdateCols js 0 data, ?_, sqlForPartialUpdateCols_length js 0 data, ?_⟩
  · unfold sqlForPartialUpdate
    rw [if_neg]
    simpa using h
  · intro i
    simpa using sqlForPartialUpdateCols_getElem js data 0 i

/-- Witness for C2 at a concrete one-field update. -/
theorem sqlForPartialUpdate_spec_witness :
    ([("firstName", JsVal.str "Bob")] : List (String × JsVal)) ≠ [] ∧
    ∃ frags : List String,
      sqlForPartialUpdate [("firstName", JsVal.str "Bob")] [("firstName", "first_name")] =
        .ok ⟨String.intercalate ", " frags,
             ([("firstName", JsVal.str "Bob")] : List (String × JsVal)).map Prod.snd⟩ ∧
      frags.length = ([("firstName", JsVal.str "Bob")] : List (String × JsVal)).length ∧
      ∀ i : Nat, frags[i]? =
        (([("firstName", JsVal.str "Bob")] : List (String × JsVal))[i]?).map fun kv =>
          "\"" ++ jsToSqlName [("firstName", "first_name")] kv.1 ++ "\"=$" ++ toString (i + 1) :=
  ⟨by decide,
   sqlForPartialUpdate_spec [("firstName", JsVal.str "Bob")] [("firstName", "first_name")]
     (by decide)⟩

/-- Claim C8, counterexample: with the translation table mapping `"a"` to
the empty string, the key `"a"` exists in the table, yet the emitted column
is `"a"` verbatim (the `||` fallback fires on the falsy mapped value), not
the table's value `""` as the claim requires. -/
theorem sqlForPartialUpdate_translation_cex :
    sqlForPartialUpdate [("a", JsVal.num 1)] [("a", "")] =
      .ok ⟨"\"a\"=$1", [JsVal.num 1]⟩ ∧
    ("a", "") ∈ ([("a", "")] : List (String × String)) ∧
    ("\"a\"=$1" : String) ≠ "\"\"=$1" := by
  refine ⟨by decide, by decide, by decide⟩

/-- Claim C8 as amended: for the i-th key `k` of the data object, if `k`
maps in the translation table to a non-empty (truthy) column name `c`, the
emitted column is `c`; if `k` is absent from the table, or maps to the
empty string (a falsy value, which the source's `||` fallback treats like
absence), the emitted column is `k` verbatim. -/
theorem sqlForPartialUpdate_translation {α : Type} (data : List (String × α))
    (js : List (String × String)) (i : Nat) (kv : String × α)
    (hkv : data[i]? = some kv) :
    (∀ c : String, js.lookup kv.1 = some c → c ≠ "" →
      (sqlForPartialUpdateCols js 0 data)[i]? =
        some ("\"" ++ c ++ "\"=$" ++ toString (i + 1))) ∧
    (js.lookup kv.1 = none ∨ js.lookup kv.1 = some "" →
      (sqlForPartialUpdateCols js 0 data)[i]? =
        some ("\"" ++ kv.1 ++ "\"=$" ++ toString (i + 1))) := by
  have hget := sqlForPartialUpdateCols_getElem js data 0 i
  rw [hkv] at hget
  constructor
  · intro c hc hcne
    rw [hget]
    simp [jsToSqlName, hc, hcne]
  · intro hfall
    rw [hget]
    rcases hfall with hnone | hempty
    · simp [jsToSqlName, hnone]
    · simp [jsToSqlName, hempty]

/-- Witness for the amended C8 at a concrete translated key. -/
theorem sqlForPartialUpdate_translation_witness :
    (([("firstName", JsVal.num 1)] : List (String × JsVal))[0]? =
      some ("firstName", JsVal.num 1)) ∧
    (sqlForPartialUpdateCols [("firstName", "first_name")] 0
        [("firstName", JsVal.num 1)])[0]? =
      some ("\"" ++ "first_name" ++ "\"=$" ++ toString (0 + 1)) :=
  ⟨rfl,
   (sqlForPartialUpdate_translation [("firstName", JsVal.num 1)]
       [("firstName", "first_name")] 0 ("firstName", JsVal.num 1) rfl).1
     "first_name" rfl (by decide)⟩
